import Mathlib

/-!
Shallow embedding of the pattern-to-chart pipeline of
`backend/app/services/pattern_service.py` (class `PatternService`) and of the
helper `get_pattern_type` from `backend/app/data/crochet_chart_knowledge.py`.

Strings are modelled as `List Char`.  Python text operations (`str.strip`,
`str.split('\n')`, `str.lower`, substring tests) and every regular expression
appearing in the source are embedded as specialised scanning functions whose
behaviour on the relevant character class (ASCII) coincides with CPython's
`re` semantics (leftmost match, ordered alternation, greedy/lazy repetition as
written, non-overlapping `findall`).  `\s`, `\d`, `\w` and `str.lower` are
modelled on their ASCII fragment, which covers every character the service's
own regexes can accept.
-/

namespace CrookedFinger

/-- ASCII whitespace recognised by Python's `str.strip()` and the regex
class `\s`: space, tab, newline, carriage return, vertical tab, form feed. -/
def isPySpace (c : Char) : Bool :=
  c = ' ' || c = '\t' || c = '\n' || c = '\r' || c = '\x0b' || c = '\x0c'

/-- Python `str.strip()`. -/
def pyStrip (s : List Char) : List Char :=
  ((s.dropWhile isPySpace).reverse.dropWhile isPySpace).reverse

/-- Python `str.split('\n')`: always returns at least one (possibly empty)
chunk, and one extra chunk per newline character. -/
def splitLines : List Char → List (List Char)
  | [] => [[]]
  | c :: rest =>
    if c = '\n' then [] :: splitLines rest
    else
      match splitLines rest with
      | [] => [[c]]
      | l :: ls => (c :: l) :: ls

/-- Python `str.lower()` on the ASCII fragment (`Char.toLower` lowers exactly
the ASCII uppercase letters). -/
def asciiLower (s : List Char) : List Char := s.map Char.toLower

/-- Regex word character `\w` (ASCII fragment): letters, digits, underscore. -/
def isWordChar (c : Char) : Bool := c.isAlphanum || c = '_'

/-- Numeric value of a digit run, as Python's `int()` on the matched group. -/
def readNat (ds : List Char) : Nat :=
  ds.foldl (fun a c => a * 10 + (c.toNat - 48)) 0

/-- Python's substring test `pat in s`. -/
def containsSub (pat : List Char) : List Char → Bool
  | [] => pat.isEmpty
  | c :: rest => pat.isPrefixOf (c :: rest) || containsSub pat rest

/-- Embeds `\s+` followed by the literal word `w`; returns the remainder after `w`.
Deterministic because `w` never starts with a whitespace character, so the
greedy `\s+` cannot profit from backtracking. -/
def spacesThen (w s : List Char) : Option (List Char) :=
  if (s.takeWhile isPySpace).isEmpty then none
  else
    let r := s.dropWhile isPySpace
    if w.isPrefixOf r then some (r.drop w.length) else none

/-- Both ends of a word-boundary test `\b`: boundary holds next to the start
or end of the string or next to a non-word character. -/
def boundaryOk : Option Char → Bool
  | none => true
  | some c => !isWordChar c

/-- Fuelled scanner for `len(re.findall(r'\b' + re.escape(abbrev) + r'\b', s))`
with a pattern that starts and ends in a word character (true of every
abbreviation in `stitch_symbols`): counts non-overlapping occurrences of `pat`
flanked by word boundaries, resuming after each match as `findall` does.
`prev` is the character just before the current position.  One unit of fuel is
spent per consumed character, so fuel `s.length` is always sufficient. -/
def countWBF (pat : List Char) : Nat → Option Char → List Char → Nat
  | 0, _, _ => 0
  | _ + 1, _, [] => 0
  | fuel + 1, prev, c :: rest =>
    if boundaryOk prev && pat.isPrefixOf (c :: rest)
        && boundaryOk ((c :: rest).drop pat.length).head? then
      1 + countWBF pat fuel pat.getLast? ((c :: rest).drop pat.length)
    else countWBF pat fuel (some c) rest

/-- Embeds `len(re.findall(r'\b' + re.escape(abbrev) + r'\b', s))`. -/
def countWB (pat s : List Char) : Nat := countWBF pat s.length none s

/-- Whole-word search `re.search(r'\b' + w + r'\b', s) is not None`. -/
def wbSearch (w s : List Char) : Bool := 0 < countWB w s

/-- Lazy tail `.*?(\d+)` of `total.*?(\d+)` / `from.*?(\d+)`: the group is the
maximal digit run starting at the first digit reachable without crossing a
newline (regex `.` does not match `\n`). -/
def firstDigitsNoNl : List Char → Option Nat
  | [] => none
  | c :: rest =>
    if c = '\n' then none
    else if c.isDigit then some (readNat (c :: rest.takeWhile Char.isDigit))
    else firstDigitsNoNl rest

/-- The unit alternation `(?:dc|sc|hdc|tc|sts?|stitches?)` of the explicit
parenthetical total, flattened in the order the regex engine tries the
branches (optional suffixes expanded longest first). -/
def parenUnits : List (List Char) :=
  ["dc".toList, "sc".toList, "hdc".toList, "tc".toList,
   "sts".toList, "st".toList, "stitches".toList, "stitche".toList]

/-- Attempt `(\d+)\s*(?:dc|sc|hdc|tc|sts?|stitches?)\)` immediately after an
opening parenthesis.  The digit run and the whitespace run are deterministic:
no unit begins with a digit or a whitespace character. -/
def parenAfter (s : List Char) : Option Nat :=
  let ds := s.takeWhile Char.isDigit
  if ds.isEmpty then none
  else
    let r := (s.dropWhile Char.isDigit).dropWhile isPySpace
    if parenUnits.any (fun u => u.isPrefixOf r && (r.drop u.length).head? == some ')') then
      some (readNat ds)
    else none

/-- Embeds `re.search(r'\((\d+)\s*(?:dc|sc|hdc|tc|sts?|stitches?)\)', s)`, returning
the numeric value of group 1 of the leftmost match. -/
def explicitTotal : List Char → Option Nat
  | [] => none
  | c :: rest =>
    if c = '(' then
      match parenAfter rest with
      | some n => some n
      | none => explicitTotal rest
    else explicitTotal rest

/-- Embeds `re.search(r'total.*?(\d+)', s)`: leftmost occurrence of `total` followed
(on the same line) by a digit; the group is the digit run there. -/
def totalPhrase : List Char → Option Nat
  | [] => none
  | c :: rest =>
    if "total".toList.isPrefixOf (c :: rest) then
      match firstDigitsNoNl (rest.drop 4) with
      | some n => some n
      | none => totalPhrase rest
    else totalPhrase rest

/-- The unit alternation `(?:dc|sc|hdc|tc)` (pairwise distinct first letters,
so no backtracking between branches is possible). -/
def stitchWords : List (List Char) :=
  ["dc".toList, "sc".toList, "hdc".toList, "tc".toList]

/-- Embeds `\s+(?:dc|sc|hdc|tc)`: at least one whitespace character, then a stitch
word; returns the remainder after the stitch word. -/
def spacesUnit (s : List Char) : Option (List Char) :=
  if (s.takeWhile isPySpace).isEmpty then none
  else
    let r := s.dropWhile isPySpace
    match stitchWords.find? (fun u => u.isPrefixOf r) with
    | some u => some (r.drop u.length)
    | none => none

/-- Tail `\s+(?:in|into)\s+magic\s+ring` of the magic-ring regex.  The
alternation tries `in` first and backtracks to `into`, exactly as the
engine does. -/
def magicTail (s : List Char) : Bool :=
  match spacesThen "in".toList s with
  | none => false
  | some r1 =>
    (match spacesThen "magic".toList r1 with
     | some r2 => (spacesThen "ring".toList r2).isSome
     | none => false)
    || ("to".toList.isPrefixOf r1 &&
        (match spacesThen "magic".toList (r1.drop 2) with
         | some r2 => (spacesThen "ring".toList r2).isSome
         | none => false))

/-- Embeds `re.search(r'(\d+)\s+(?:dc|sc|hdc|tc)\s+(?:in|into)\s+magic\s+ring', s)`:
group 1 of the leftmost match. -/
def magicRing : List Char → Option Nat
  | [] => none
  | c :: rest =>
    if c.isDigit then
      match spacesUnit (rest.dropWhile Char.isDigit) with
      | some r2 =>
        if magicTail r2 then some (readNat (c :: rest.takeWhile Char.isDigit))
        else magicRing rest
      | none => magicRing rest
    else magicRing rest

/-- Tail `\s+in\s+each` of the increase regex. -/
def increaseTail (s : List Char) : Bool :=
  match spacesThen "in".toList s with
  | none => false
  | some r1 => (spacesThen "each".toList r1).isSome

/-- Embeds `re.search(r'(\d+)\s+(?:dc|sc|hdc|tc)\s+in\s+each', s)`: group 1 of the
leftmost match (the multiplier). -/
def increaseMul : List Char → Option Nat
  | [] => none
  | c :: rest =>
    if c.isDigit then
      match spacesUnit (rest.dropWhile Char.isDigit) with
      | some r2 =>
        if increaseTail r2 then some (readNat (c :: rest.takeWhile Char.isDigit))
        else increaseMul rest
      | none => increaseMul rest
    else increaseMul rest

/-- Embeds `re.search(r'from.*?(\d+)', s)`: digits reachable after the leftmost
viable `from` without crossing a newline. -/
def fromDigits : List Char → Option Nat
  | [] => none
  | c :: rest =>
    if "from".toList.isPrefixOf (c :: rest) then
      match firstDigitsNoNl (rest.drop 3) with
      | some n => some n
      | none => fromDigits rest
    else fromDigits rest

/-- Embeds `re.search(r'(\d+)\s+(?:sts?|stitches?)', s)`: since nothing follows the
alternation, it succeeds exactly when the literal `st` follows the whitespace
run (every branch starts with `st` and the shortest branch is `st`). -/
def stsDigits : List Char → Option Nat
  | [] => none
  | c :: rest =>
    if c.isDigit then
      let r := rest.dropWhile Char.isDigit
      if !(r.takeWhile isPySpace).isEmpty
          && "st".toList.isPrefixOf (r.dropWhile isPySpace) then
        some (readNat (c :: rest.takeWhile Char.isDigit))
      else stsDigits rest
    else stsDigits rest

/-- Negative lookahead `(?!\s*in\s*each)` placed after a stitch unit. -/
def inEachAhead (s : List Char) : Bool :=
  let r := s.dropWhile isPySpace
  "in".toList.isPrefixOf r
    && "each".toList.isPrefixOf ((r.drop 2).dropWhile isPySpace)

/-- Fuelled scanner for `re.findall(r'(\d+)\s*U(?!\s*in\s*each)', s)` with `U`
one of `dc|sc|hdc|tc`, summing the numeric values of all (non-overlapping)
group-1 matches; scanning resumes after the consumed text of each match, as
`findall` does.  Each recursive call consumes at least one character, so fuel
`s.length` is always sufficient. -/
def findallUnitSumF (u : List Char) : Nat → List Char → Nat
  | 0, _ => 0
  | _ + 1, [] => 0
  | fuel + 1, c :: rest =>
    if c.isDigit then
      let r := (rest.dropWhile Char.isDigit).dropWhile isPySpace
      if u.isPrefixOf r && !inEachAhead (r.drop u.length) then
        readNat (c :: rest.takeWhile Char.isDigit) + findallUnitSumF u fuel (r.drop u.length)
      else findallUnitSumF u fuel rest
    else findallUnitSumF u fuel rest

/-- Sum of the groups found by `re.findall(r'(\d+)\s*U(?!\s*in\s*each)', s)`. -/
def findallUnitSum (u s : List Char) : Nat := findallUnitSumF u s.length s

/-- The fallback loop of `_count_stitches`: the four per-abbreviation
`findall` sums, accumulated. -/
def fallbackSum (low : List Char) : Nat :=
  findallUnitSum "dc".toList low + findallUnitSum "sc".toList low
    + findallUnitSum "hdc".toList low + findallUnitSum "tc".toList low

/-- Embeds `'ch 3' in instruction_lower or 'chain 3' in instruction_lower`,
the guard of the magic-ring branch's counts-as-first-stitch bonus. -/
def chThree (low : List Char) : Bool :=
  containsSub "ch 3".toList low || containsSub "chain 3".toList low

/-- Embeds `'ch 3' in instruction_lower`, the guard of the fallback branch's
chain bonus — unlike the magic-ring branch it does not accept `chain 3`. -/
def chThreeLit (low : List Char) : Bool :=
  containsSub "ch 3".toList low

/-- Embeds `PatternService._count_stitches`, with its precedence chain: explicit
parenthetical total, `total ... N`, magic ring (plus the `ch 3`/`chain 3`
bonus), multiplier `N <stitch> in each` (only when a `from ... M` or
`M st...` count is discoverable; otherwise the branch falls through), then
the per-unit fallback sums (plus the `'ch 3'`-only bonus when positive)
floored to 1. -/
def countStitches (instr : List Char) : Nat :=
  match explicitTotal (asciiLower instr) with
  | some n => n
  | none =>
    match totalPhrase (asciiLower instr) with
    | some n => n
    | none =>
      match magicRing (asciiLower instr) with
      | some b => if chThree (asciiLower instr) then b + 1 else b
      | none =>
        match increaseMul (asciiLower instr), fromDigits (asciiLower instr),
            stsDigits (asciiLower instr) with
        | some m, some p, _ => m * p
        | some m, none, some p => m * p
        | _, _, _ =>
          max (if chThreeLit (asciiLower instr) ∧ 0 < fallbackSum (asciiLower instr) then
                 fallbackSum (asciiLower instr) + 1
               else fallbackSum (asciiLower instr)) 1

/-- Iteration order of `self.stitch_symbols` (a Python 3.7+ dict preserves
insertion order), as `_identify_stitch_types` loops over its keys. -/
def abbrevList : List String :=
  ["sc", "dc", "hdc", "tc", "sl st", "ch", "inc", "dec", "yo", "sk"]

/-- Embeds `PatternService._identify_stitch_types`: for each known abbreviation, the
number of whole-word occurrences in the lowered instruction; only positive
counts are recorded, in dict insertion order. -/
def identifyStitchTypes (instr : List Char) : List (String × Nat) :=
  let low := asciiLower instr
  abbrevList.filterMap fun a =>
    let c := countWB a.toList low
    if 0 < c then some (a, c) else none

/-- Embeds `dict[k] = v` on an insertion-ordered association list: overwrites the
value in place if `k` is present, else appends. -/
def setKey (k : String) (v : Nat) : List (String × Nat) → List (String × Nat)
  | [] => [(k, v)]
  | (k', v') :: t => if k' = k then (k, v) :: t else (k', v') :: setKey k v t

/-- Python `dict.update`: every key of `upd` overwrites (or is appended to)
`d`; values for shared keys are replaced, not summed. -/
def histUpdate (d upd : List (String × Nat)) : List (String × Nat) :=
  upd.foldl (fun acc kv => setKey kv.1 kv.2 acc) d

/-- Embeds `d.get(k, 0)`-style lookup in a histogram. -/
def histCount (d : List (String × Nat)) (k : String) : Nat :=
  match d.find? (fun kv => kv.1 == k) with
  | some kv => kv.2
  | none => 0

/-- Embeds `max(stitch_types.items(), key=lambda x: x[1])[0]` with the `'sc'`
default of `_get_dominant_stitch_type`; Python's `max` keeps the first of
several maximal entries. -/
def dominantStitch : List (String × Nat) → String
  | [] => "sc"
  | kv :: t => (t.foldl (fun best x => if best.2 < x.2 then x else best) kv).1

/-- One parsed round/row: the dict built by `parse_pattern_structure`. -/
structure RoundRecord where
  number : Nat
  instructions : List Char
  stitches : Nat
  stitch_types : List (String × Nat)
deriving DecidableEq, Repr

/-- The alternation `(?:round|rnd|row)` of the marker regex, in the order the
engine tries the branches. -/
def markerWords : List (List Char) := ["round".toList, "rnd".toList, "row".toList]

/-- Embeds `\s*(\d+)` after the marker word: skip whitespace, then a non-empty digit
run (deterministic: a shorter whitespace run would leave a whitespace
character where a digit is required). -/
def afterMarkerWord (r : List Char) : Option Nat :=
  let ds := (r.dropWhile isPySpace).takeWhile Char.isDigit
  if ds.isEmpty then none else some (readNat ds)

/-- Embeds `re.match(r'(?:round|rnd|row)\s*(\d+)', line_lower)`: anchored at the
start of the (already lowered) line; branches tried in order, each with the
full continuation, as the engine backtracks. -/
def matchMarker (low : List Char) : Option Nat :=
  (markerWords.filterMap fun w =>
    if w.isPrefixOf low then afterMarkerWord (low.drop w.length) else none).head?

/-- Opening a new round dict from a marker line. -/
def newRound (n : Nat) (line : List Char) : RoundRecord :=
  { number := n, instructions := line, stitches := countStitches line,
    stitch_types := identifyStitchTypes line }

/-- Folding a continuation line into the open round: instructions are joined
with a space, stitch counts are summed, and the histogram is combined with
`dict.update` (per-key overwrite, not a sum). -/
def contLine (r : RoundRecord) (line : List Char) : RoundRecord :=
  { r with instructions := r.instructions ++ ' ' :: line,
           stitches := r.stitches + countStitches line,
           stitch_types := histUpdate r.stitch_types (identifyStitchTypes line) }

/-- The line loop of `parse_pattern_structure`: `cur` is `current_round`,
`acc` the `rounds` list built so far; blank lines are skipped, marker lines
flush `cur` and open a new record, other lines extend `cur` when one is open
and are silently discarded otherwise; the trailing `cur` is flushed at the
end. -/
def processLines (cur : Option RoundRecord) (acc : List RoundRecord) :
    List (List Char) → List RoundRecord
  | [] => acc ++ cur.toList
  | l :: rest =>
    if pyStrip l = [] then processLines cur acc rest
    else
      match matchMarker (asciiLower (pyStrip l)), cur with
      | some n, _ => processLines (some (newRound n (pyStrip l))) (acc ++ cur.toList) rest
      | none, some r => processLines (some (contLine r (pyStrip l))) acc rest
      | none, none => processLines none acc rest

/-- Embeds `PatternService._determine_pattern_type`. -/
def determinePatternType (text : List Char) : String :=
  if containsSub "magic ring".toList (asciiLower text)
      || containsSub "magic circle".toList (asciiLower text) then "circular"
  else if wbSearch "round".toList (asciiLower text)
      || wbSearch "rnd".toList (asciiLower text) then "rounds"
  else if wbSearch "row".toList (asciiLower text) then "rows"
  else "unknown"

/-- Embeds `PatternService._estimate_size`. -/
def estimateSize (rounds : List RoundRecord) : String :=
  if rounds = [] then "unknown"
  else if (rounds.map (·.stitches)).sum < 50 then "small (< 3 inches)"
  else if (rounds.map (·.stitches)).sum < 200 then "medium (3-6 inches)"
  else "large (> 6 inches)"

/-- The dict returned by `parse_pattern_structure`. -/
structure ParsedPattern where
  total_rounds : Nat
  rounds : List RoundRecord
  pattern_type : String
  estimated_size : String
  pattern_text : List Char
deriving DecidableEq, Repr

/-- Embeds `PatternService.parse_pattern_structure`: strip, split into lines, run
the line loop, and attach the derived classification fields. -/
def parse_pattern_structure (text : List Char) : ParsedPattern :=
  let rounds := processLines none [] (splitLines (pyStrip text))
  { total_rounds := rounds.length
    rounds := rounds
    pattern_type := determinePatternType text
    estimated_size := estimateSize rounds
    pattern_text := text }

/-! ### Chart rendering

`get_pattern_type` (from `crochet_chart_knowledge.py`) and the two chart
generators of `PatternService`.  The SVG builder is embedded as an ordered
list of drawing elements.  Per-stitch canvas coordinates in the source are
`center + radius * (cos θ, sin θ)` with `θ = i * (360 / stitchCount) - 90`
degrees, a pure function of `(center, radius, i, stitchCount)`; the
embedding records exactly that data in the ring-stitch element and keeps
each stitch symbol's fixed vector primitives (`_draw_stitch_symbol`)
atomic. -/

/-- Embeds `get_pattern_type` from `crochet_chart_knowledge.py` (plain substring
tests, unlike `_determine_pattern_type`). -/
def get_pattern_type (text : List Char) : String :=
  let low := asciiLower text
  if containsSub "magic ring".toList low || containsSub "magic circle".toList low then
    "circular"
  else if containsSub "granny square".toList low then "square"
  else if containsSub "foundation".toList low || containsSub "base chain".toList low
      || containsSub "ch and turn".toList low then "rectangular"
  else if containsSub "round".toList low then "circular"
  else if containsSub "row".toList low then "rectangular"
  else "unknown"

/-- Where a stitch symbol is anchored: on a ring (index `idx` of `count`
evenly spaced positions at the given radius around the centre) or at a fixed
point (legend). -/
inductive StitchPos
  | ring (cx cy radius : Int) (idx count : Nat)
  | fixed (x y : Int)
deriving DecidableEq, Repr

/-- One drawing element of the SVG chart, in emission order. -/
inductive Elem
  | rect (x y w h : Int) (fill : String)
  | text (content : String) (x y : Int)
  | circle (cx cy r : Int)
  | radialLine (idx : Nat) (maxRadius : Int)
  | arrowArc (outerRadius : Int)
  | arrowMarker
  | stitchSym (pos : StitchPos) (styp : String)
deriving DecidableEq, Repr

/-- Embeds `max([r['stitches'] for r in rounds] + [12])`. -/
def maxStitches (rounds : List RoundRecord) : Nat :=
  let counts : List Nat := rounds.map fun r => r.stitches
  (counts ++ [12]).foldl Nat.max 0

/-- Embeds `width = min(600, max(400, max_stitches * 20))`. -/
def svgWidth (rounds : List RoundRecord) : Int :=
  min 600 (max 400 ((maxStitches rounds : Int) * 20))

/-- Embeds `center_x = width // 2`. -/
def svgCenterX (rounds : List RoundRecord) : Int := svgWidth rounds / 2

/-- Embeds `center_y = height // 2 + 20` with the fixed `height = 500`. -/
def svgCenterY : Int := 500 / 2 + 20

/-- Embeds `_draw_radial_guidelines`: nothing for an empty round list, else eight
dashed lines at 45-degree steps out to `50 + (len(rounds) - 1) * 35`. -/
def radialGuidelines (rounds : List RoundRecord) : List Elem :=
  if rounds = [] then []
  else (List.range 8).map fun i => Elem.radialLine i (50 + ((rounds.length : Int) - 1) * 35)

/-- Embeds `_draw_directional_arrows`: only for circular/square charts with at least
two rounds, a curved arc (plus its arrowhead marker) just outside the
position-indexed outermost radius. -/
def directionalArrows (rounds : List RoundRecord) (ptype : String) : List Elem :=
  if rounds = [] || !(ptype == "circular" || ptype == "square") then []
  else if 1 < rounds.length then
    [Elem.arrowArc (50 + ((rounds.length : Int) - 1) * 35 + 15), Elem.arrowMarker]
  else []

/-- Embeds `_draw_round_stitches`: one symbol per stitch position (`for i in
range(stitch_count)`), every position using the round's dominant stitch
type; nothing when the count is zero.  There is no display cap and no
truncation marker. -/
def draw_round_stitches (cx cy radius : Int) (r : RoundRecord) : List Elem :=
  if r.stitches = 0 then []
  else (List.range r.stitches).map fun i =>
    Elem.stitchSym (StitchPos.ring cx cy radius i r.stitches)
      (dominantStitch r.stitch_types)

/-- The per-round block of `generate_stitch_diagram_svg`: the guide circle at
radius `50 + (round['number'] - 1) * 35` (keyed on the record's own `number`
field), the `R{n}` label, the `({stitches})` stitch-count label, then the
stitch symbols when the count is positive. -/
def roundElems (cx cy : Int) (r : RoundRecord) : List Elem :=
  [Elem.circle cx cy (50 + ((r.number : Int) - 1) * 35),
   Elem.text ("R" ++ Nat.repr r.number)
     (cx - (50 + ((r.number : Int) - 1) * 35) - 50)
     (cy - (50 + ((r.number : Int) - 1) * 35) + 8),
   Elem.text ("(" ++ Nat.repr r.stitches ++ ")")
     (cx - (50 + ((r.number : Int) - 1) * 35) - 50)
     (cy - (50 + ((r.number : Int) - 1) * 35) + 22)]
  ++ (if 0 < r.stitches then draw_round_stitches cx cy (50 + ((r.number : Int) - 1) * 35) r
      else [])

/-- The legend rows of `_draw_professional_legend`, in source order: sample
symbol stitch type and description text. -/
def legendItems : List (String × String) :=
  [("sc", "Single Crochet (sc)"), ("hdc", "Half Double Crochet (hdc)"),
   ("dc", "Double Crochet (dc)"), ("ch", "Chain (ch)"), ("sl st", "Slip Stitch (sl st)")]

/-- Embeds `_draw_professional_legend`. -/
def legendElems (_width height : Int) : List Elem :=
  Elem.text "Chart Symbols:" 30 (height - 120) ::
  (legendItems.enum.flatMap fun it =>
    [Elem.stitchSym (StitchPos.fixed (30 + 10) (height - 120 + 20 + (it.1 : Int) * 18)) it.2.1,
     Elem.text it.2.2 (30 + 25) (height - 120 + 20 + (it.1 : Int) * 18 + 4)])

/-- Embeds `PatternService.generate_stitch_diagram_svg`: background, title, info
line, radial guidelines (circular/square only), directional arrows, the
per-round blocks in parse order, then the legend. -/
def generate_stitch_diagram_svg (p : ParsedPattern) : List Elem :=
  let ptype := get_pattern_type p.pattern_text
  let width := svgWidth p.rounds
  let cx := svgCenterX p.rounds
  [Elem.rect 0 0 width 500 "white",
   Elem.text "Crochet Pattern Chart" cx 25,
   Elem.text ("Pattern: " ++ p.pattern_type ++ " • " ++ Nat.repr p.total_rounds ++ " rounds")
     cx 45]
  ++ (if ptype == "circular" || ptype == "square" then radialGuidelines p.rounds else [])
  ++ directionalArrows p.rounds ptype
  ++ p.rounds.flatMap (roundElems cx svgCenterY)
  ++ legendElems width 500

/-- One element of the matplotlib chart of `generate_pattern_chart_png`.  A
round circle's radius is `(idx / len) * 0.4` in axes units; `idx` and `len`
record that exact ratio. -/
inductive PngElem
  | text (content : String)
  | circle (idx len : Nat)
  | label (content : String) (idx len : Nat)
  | title (content : String)
deriving DecidableEq, Repr

/-- Embeds `PatternService.generate_pattern_chart_png`: with no rounds only the
`'No pattern data available'` placeholder is drawn, else one circle and one
`R{n} ({stitches})` label per round (position-indexed radii); the fixed
`'Pattern Chart'` title is always set afterwards. -/
def generate_pattern_chart_png (p : ParsedPattern) : List PngElem :=
  (if p.rounds = [] then [PngElem.text "No pattern data available"]
   else p.rounds.enum.flatMap fun ir =>
     [PngElem.circle (ir.1 + 1) p.rounds.length,
      PngElem.label ("R" ++ Nat.repr ir.2.number ++ " (" ++ Nat.repr ir.2.stitches ++ ")")
        (ir.1 + 1) p.rounds.length])
  ++ [PngElem.title "Pattern Chart"]

/-! ### Predicates used by the claims -/

/-- A line that opens a new round record: its stripped, lowered form matches
the marker regex. -/
def isMarkerLine (l : List Char) : Bool :=
  (matchMarker (asciiLower (pyStrip l))).isSome

/-- Whether some branch of `_determine_pattern_type` can fire on this text. -/
def hasTypeKeyword (text : List Char) : Bool :=
  let low := asciiLower text
  containsSub "magic ring".toList low || containsSub "magic circle".toList low
    || wbSearch "round".toList low || wbSearch "rnd".toList low
    || wbSearch "row".toList low

/-- No counting heuristic of `_count_stitches` extracts anything from this
(lowered) instruction, so the count defaults to the floor of 1. -/
def noCountHeuristic (low : List Char) : Bool :=
  (explicitTotal low).isNone && (totalPhrase low).isNone && (magicRing low).isNone
    && ((increaseMul low).isNone || ((fromDigits low).isNone && (stsDigits low).isNone))
    && fallbackSum low == 0

/-- A round guide circle (the only `dwg.circle` the chart emits at round
level; the slip-stitch glyph is atomic inside its stitch symbol). -/
def isRoundCircle : Elem → Bool
  | Elem.circle _ _ _ => true
  | _ => false

/-- A stitch symbol placed on a round's ring. -/
def isRingStitch : Elem → Bool
  | Elem.stitchSym (StitchPos.ring _ _ _ _ _) _ => true
  | _ => false

/-- A text element containing a truncation marker. -/
def textHasEllipsis : Elem → Bool
  | Elem.text s _ _ => s.toList.contains '…'
  | _ => false

/-- A text element mentioning the "no pattern data" placeholder. -/
def mentionsNoPatternData : Elem → Bool
  | Elem.text s _ _ => containsSub "no pattern data".toList (asciiLower s.toList)
  | _ => false

/-- The rectangular scenario input of the spec. -/
def c5Text : List Char :=
  "Foundation: Ch 25\nRow 1: sc in 2nd ch from hook, sc across (24 sc)".toList

/-- A single round whose explicit total, 201, exceeds the claimed
readability threshold of 200. -/
def c6Text : List Char := "Round 1: (201 sc)".toList

/-- A marker line followed by one continuation line, both mentioning `sc`. -/
def c8Text : List Char := "Round 1: 2 sc\n3 sc".toList

/-! ### Claim C1 -/

/-- The round-trip scenario input of the spec. -/
def c1Text : List Char :=
  "Round 1: 6 sc in magic ring\nRound 2: inc in each st around (12)".toList

/-- C1 is false on the code: on the spec's round-trip input the pattern type
is `"circular"` and round 1 counts 6 as claimed, but round 2 counts 1, not
12 — the explicit-total regex `\((\d+)\s*(?:dc|sc|hdc|tc|sts?|stitches?)\)`
requires a stitch unit inside the parentheses, so the bare `(12)` does not
match and the line falls through to the floor of 1. -/
theorem c1_counterexample :
    (parse_pattern_structure c1Text).pattern_type = "circular"
      ∧ ((parse_pattern_structure c1Text).rounds.map fun r => r.stitches) = [6, 1]
      ∧ ¬ ((parse_pattern_structure c1Text).rounds.map fun r => r.stitches) = [6, 12] := by
  decide

/-- C1 (amended): on the round-trip input, `parse_pattern_structure` yields
pattern type `"circular"`, rounds numbered 1 and 2, round 1 with stitch
count 6, and round 2 with stitch count 1 (the bare parenthetical `(12)`
carries no stitch unit, so no heuristic matches and the count defaults
to 1). -/
theorem c1_roundtrip_scenario :
    (parse_pattern_structure c1Text).pattern_type = "circular"
      ∧ ((parse_pattern_structure c1Text).rounds.map fun r => r.number) = [1, 2]
      ∧ ((parse_pattern_structure c1Text).rounds.map fun r => r.stitches) = [6, 1] := by
  decide

/-! ### Claim C5 -/

/-- C5 is false on the code: `_determine_pattern_type` labels row-based
patterns `"rows"`, never `"rectangular"` (that value exists only in
`get_pattern_type` of the knowledge base, which is not what
`parse_pattern_structure` stores). -/
theorem c5_counterexample :
    ¬ (parse_pattern_structure c5Text).pattern_type = "rectangular" := by
  decide

/-- C5 (amended): on the foundation/row scenario input the parse yields
pattern type `"rows"` (the code's label for row-based patterns) and exactly
one row, whose stitch count is the explicit parenthetical total 24. -/
theorem c5_row_scenario :
    (parse_pattern_structure c5Text).pattern_type = "rows"
      ∧ ((parse_pattern_structure c5Text).rounds.map fun r => r.stitches) = [24] := by
  decide

/-! ### Claim C3 (counterexample) -/

/-- C3 is false on the code: the non-empty input `"Round 1: (0 sc)"` yields a
round whose `stitchCount` is 0 — the explicit parenthetical branch of
`_count_stitches` returns its extracted total unfloored, and only the final
fallback branch applies `max(..., 1)`. -/
theorem c3_counterexample :
    ((parse_pattern_structure "Round 1: (0 sc)".toList).rounds.map fun r => r.stitches) = [0]
      ∧ ¬ ∀ r ∈ (parse_pattern_structure "Round 1: (0 sc)".toList).rounds, 1 ≤ r.stitches := by
  decide

/-! ### Claim C6 (counterexample) -/

set_option maxRecDepth 40000 in
/-- C6 is false on the code: for a round of 201 stitches the renderer emits
all 201 ring stitch symbols — more than the claimed threshold of 200 — and
no element of the document carries a `…` truncation marker. -/
theorem c6_counterexample :
    ¬ (((generate_stitch_diagram_svg (parse_pattern_structure c6Text)).filter
        isRingStitch).length ≤ 200)
      ∧ (((generate_stitch_diagram_svg (parse_pattern_structure c6Text)).filter
          isRingStitch).length = 201)
      ∧ ∀ e ∈ generate_stitch_diagram_svg (parse_pattern_structure c6Text),
          textHasEllipsis e = false := by
  decide

/-! ### Claim C7 (counterexample) -/

/-- C7 is false on the code: for the empty input (zero rounds) the SVG chart
`generate_stitch_diagram_svg` contains no "no pattern data" placeholder at
all — it still emits the fixed title (and background, info line and legend).
Only the separate matplotlib PNG variant draws the placeholder. -/
theorem c7_counterexample :
    (parse_pattern_structure ([] : List Char)).rounds = []
      ∧ (∀ e ∈ generate_stitch_diagram_svg (parse_pattern_structure ([] : List Char)),
          mentionsNoPatternData e = false)
      ∧ Elem.text "Crochet Pattern Chart" 200 25
          ∈ generate_stitch_diagram_svg (parse_pattern_structure ([] : List Char)) := by
  decide

/-! ### Claim C8 (counterexample) -/

/-- C8 is false on the code: the record built from `"Round 1: 2 sc"` plus the
continuation `"3 sc"` has histogram entry `sc ↦ 1`, while the per-line
partial histograms each count `sc ↦ 1` — the per-type sum would be 2.  The
loop merges continuation histograms with `dict.update`, which overwrites
shared keys instead of summing them (the stitch counts, by contrast, are
summed: 2 + 3 = 5). -/
theorem c8_counterexample :
    ((parse_pattern_structure c8Text).rounds.map fun r => histCount r.stitch_types "sc") = [1]
      ∧ histCount (identifyStitchTypes "Round 1: 2 sc".toList) "sc"
          + histCount (identifyStitchTypes "3 sc".toList) "sc" = 2
      ∧ ¬ ((parse_pattern_structure c8Text).rounds.map fun r =>
            histCount r.stitch_types "sc") = [2]
      ∧ ((parse_pattern_structure c8Text).rounds.map fun r => r.stitches) = [5] := by
  decide

/-! ### Claim C2 -/

/-- C2: `parse_pattern_structure` is a total function of the input text (the
embedding is a plain Lean function, mirroring source code whose operations —
`re` searches, `int()` on `\d+` groups, string splitting — cannot raise),
and its result degrades rather than fails on arbitrary input: the round list
is well-formed (`total_rounds` matches it), the pattern type is always one
of the four labels and is `"unknown"` exactly when no classification keyword
occurs, the size label is always one of the four size strings, and any
instruction from which no counting heuristic extracts anything is defaulted
to a stitch count of 1. -/
theorem c2_parser_never_fails (text : List Char) :
    (parse_pattern_structure text).total_rounds = (parse_pattern_structure text).rounds.length
      ∧ (parse_pattern_structure text).pattern_type
          ∈ (["circular", "rounds", "rows", "unknown"] : List String)
      ∧ (parse_pattern_structure text).estimated_size
          ∈ (["unknown", "small (< 3 inches)", "medium (3-6 inches)",
              "large (> 6 inches)"] : List String)
      ∧ (hasTypeKeyword text = false → (parse_pattern_structure text).pattern_type = "unknown")
      ∧ (∀ instr : List Char, noCountHeuristic (asciiLower instr) = true →
          countStitches instr = 1) := by
  refine ⟨rfl, ?_, ?_, ?_, ?_⟩
  · show determinePatternType text ∈ _
    unfold determinePatternType
    split_ifs <;> decide
  · show estimateSize (processLines none [] (splitLines (pyStrip text))) ∈ _
    unfold estimateSize
    split_ifs <;> decide
  · intro h
    show determinePatternType text = "unknown"
    simp only [hasTypeKeyword, Bool.or_eq_false_iff] at h
    obtain ⟨⟨⟨⟨h1, h2⟩, h3⟩, h4⟩, h5⟩ := h
    unfold determinePatternType
    rw [h1, h2, h3, h4, h5]
    simp
  · intro instr h
    simp only [noCountHeuristic, Bool.and_eq_true, Bool.or_eq_true,
      Option.isNone_iff_eq_none, beq_iff_eq] at h
    obtain ⟨⟨⟨⟨h1, h2⟩, h3⟩, h4⟩, h5⟩ := h
    unfold countStitches
    rw [h1, h2, h3, h5]
    rcases h4 with h4 | ⟨hf, hs⟩
    · rw [h4]
      simp
    · cases hM : increaseMul (asciiLower instr) with
      | none => rw [hf, hs]; simp
      | some m => rw [hf, hs]; simp

/-- Witness for C2 at concrete inputs: text without classification keywords
parses to pattern type `"unknown"`, and an instruction without countable
phrases gets the default stitch count 1. -/
theorem c2_witness :
    (parse_pattern_structure "puff stitch fabric, join and turn".toList).pattern_type
        = "unknown"
      ∧ countStitches "puff stitch fabric, join and turn".toList = 1 := by
  obtain ⟨-, -, -, h4, h5⟩ :=
    c2_parser_never_fails "puff stitch fabric, join and turn".toList
  exact ⟨h4 (by decide), h5 "puff stitch fabric, join and turn".toList (by decide)⟩

/-! ### Loop invariants of `processLines` -/

/-- An empty line never matches the marker regex. -/
theorem matchMarker_nil : matchMarker ([] : List Char) = none := by decide

/-- Each marker line contributes exactly one record to the loop's result:
the final length is the records already banked, plus the open one, plus one
per marker line remaining. -/
theorem processLines_length (ls : List (List Char)) :
    ∀ (cur : Option RoundRecord) (acc : List RoundRecord),
      (processLines cur acc ls).length
        = acc.length + cur.toList.length + (ls.filter isMarkerLine).length := by
  induction ls with
  | nil => intro cur acc; simp [processLines]
  | cons l rest ih =>
    intro cur acc
    by_cases hb : pyStrip l = []
    · have hm : isMarkerLine l = false := by
        simp [isMarkerLine, hb, matchMarker_nil, asciiLower]
      simp [processLines, hb, hm, ih]
    · cases hM : matchMarker (asciiLower (pyStrip l)) with
      | some n =>
        have hm : isMarkerLine l = true := by simp [isMarkerLine, hM]
        simp [processLines, hb, hM, hm, ih]
        omega
      | none =>
        have hm : isMarkerLine l = false := by simp [isMarkerLine, hM]
        cases cur with
        | some r => simp [processLines, hb, hM, hm, ih]
        | none => simp [processLines, hb, hM, hm, ih]

/-- If every line's stitch count is at least 1 (and the records carried in so
far satisfy the bound), every record the loop produces has stitch count at
least 1: a new record starts at its line's count and a continuation only adds
to a count already at least 1. -/
theorem processLines_stitches_pos (ls : List (List Char)) :
    ∀ (cur : Option RoundRecord) (acc : List RoundRecord),
      (∀ l ∈ ls, 1 ≤ countStitches (pyStrip l)) →
      (∀ r ∈ acc, 1 ≤ r.stitches) →
      (∀ r ∈ cur.toList, 1 ≤ r.stitches) →
      ∀ r ∈ processLines cur acc ls, 1 ≤ r.stitches := by
  induction ls with
  | nil =>
    intro cur acc _ hacc hcur r hr
    simp only [processLines, List.mem_append] at hr
    exact hr.elim (hacc r) (hcur r)
  | cons l rest ih =>
    intro cur acc hls hacc hcur
    have hrest : ∀ l' ∈ rest, 1 ≤ countStitches (pyStrip l') :=
      fun l' h' => hls l' (List.mem_cons_of_mem _ h')
    have hhead : 1 ≤ countStitches (pyStrip l) := hls l (List.mem_cons_self _ _)
    by_cases hb : pyStrip l = []
    · intro r hr
      rw [show processLines cur acc (l :: rest) = processLines cur acc rest by
        simp [processLines, hb]] at hr
      exact ih cur acc hrest hacc hcur r hr
    · cases hM : matchMarker (asciiLower (pyStrip l)) with
      | some n =>
        intro r hr
        rw [show processLines cur acc (l :: rest)
            = processLines (some (newRound n (pyStrip l))) (acc ++ cur.toList) rest by
          simp [processLines, hb, hM]] at hr
        refine ih _ _ hrest ?_ ?_ r hr
        · intro r' hr'
          exact (List.mem_append.mp hr').elim (hacc r') (hcur r')
        · intro r' hr'
          simp only [Option.toList_some, List.mem_singleton] at hr'
          subst hr'
          exact hhead
      | none =>
        cases cur with
        | some rc =>
          intro r hr
          rw [show processLines (some rc) acc (l :: rest)
              = processLines (some (contLine rc (pyStrip l))) acc rest by
            simp [processLines, hb, hM]] at hr
          refine ih _ _ hrest hacc ?_ r hr
          intro r' hr'
          simp only [Option.toList_some, List.mem_singleton] at hr'
          subst hr'
          have h1 : 1 ≤ rc.stitches := hcur rc (by simp)
          simp only [contLine]
          omega
        | none =>
          intro r hr
          rw [show processLines none acc (l :: rest) = processLines none acc rest by
            simp [processLines, hb, hM]] at hr
          exact ih _ _ hrest hacc (by simp) r hr

/-- Leading non-marker lines are no-ops for the loop when no record is open:
blank lines are skipped and non-marker text lines are discarded. -/
theorem processLines_drop_premarker (pre ls : List (List Char))
    (h : ∀ l ∈ pre, isMarkerLine l = false) :
    processLines none [] (pre ++ ls) = processLines none [] ls := by
  induction pre with
  | nil => rfl
  | cons l rest ih =>
    have hl := h l (List.mem_cons_self _ _)
    have hrest : ∀ l' ∈ rest, isMarkerLine l' = false :=
      fun l' h' => h l' (List.mem_cons_of_mem _ h')
    by_cases hb : pyStrip l = []
    · rw [List.cons_append, show processLines none [] (l :: (rest ++ ls))
          = processLines none [] (rest ++ ls) by simp [processLines, hb]]
      exact ih hrest
    · cases hM : matchMarker (asciiLower (pyStrip l)) with
      | some n => simp [isMarkerLine, hM] at hl
      | none =>
        rw [List.cons_append, show processLines none [] (l :: (rest ++ ls))
            = processLines none [] (rest ++ ls) by simp [processLines, hb, hM]]
        exact ih hrest

/-! ### Claim C3 (amended theorem) -/

/-- C3 (amended): for every input text the number of records equals the
number of marker lines; and every record's stitch count is at least 1
provided every line's `_count_stitches` value is at least 1 — which can fail
only when an explicit count phrase extracts a literal 0 (the floor
`max(..., 1)` sits only in the final fallback branch; see
`c3_counterexample`). -/
theorem c3_marker_count_and_floor (text : List Char) :
    (parse_pattern_structure text).rounds.length
        = ((splitLines (pyStrip text)).filter isMarkerLine).length
      ∧ ((∀ l ∈ splitLines (pyStrip text), 1 ≤ countStitches (pyStrip l)) →
          ∀ r ∈ (parse_pattern_structure text).rounds, 1 ≤ r.stitches) := by
  constructor
  · have h := processLines_length (splitLines (pyStrip text)) none []
    simpa using h
  · intro hl
    exact processLines_stitches_pos (splitLines (pyStrip text)) none [] hl
      (by simp) (by simp)

/-- Witness for C3 (amended) at a concrete two-marker input. -/
theorem c3_witness :
    (parse_pattern_structure "Round 1: 6 sc\nRound 2: 5 dc".toList).rounds.length
        = ((splitLines (pyStrip "Round 1: 6 sc\nRound 2: 5 dc".toList)).filter
            isMarkerLine).length
      ∧ ∀ r ∈ (parse_pattern_structure "Round 1: 6 sc\nRound 2: 5 dc".toList).rounds,
          1 ≤ r.stitches := by
  obtain ⟨h1, h2⟩ := c3_marker_count_and_floor "Round 1: 6 sc\nRound 2: 5 dc".toList
  exact ⟨h1, h2 (by decide)⟩

/-! ### Claim C9 -/

/-- C9: any leading block of lines in which no line matches the round/row
marker is silently discarded by the parse loop — the rounds (hence every
record's text, stitch count and histogram) are those of the remaining lines
alone.  (`(parse_pattern_structure text).rounds` is, by definition,
`processLines none [] (splitLines (pyStrip text))`.) -/
theorem c9_premarker_lines_discarded (text : List Char) (pre ls : List (List Char))
    (hsplit : splitLines (pyStrip text) = pre ++ ls)
    (h : ∀ l ∈ pre, isMarkerLine l = false) :
    (parse_pattern_structure text).rounds = processLines none [] ls := by
  show processLines none [] (splitLines (pyStrip text)) = processLines none [] ls
  rw [hsplit]
  exact processLines_drop_premarker pre ls h

/-- Witness for C9: the foundation line of the rectangular scenario is
discarded; parsing the two-line text gives exactly the rounds of the second
line alone. -/
theorem c9_witness :
    (parse_pattern_structure c5Text).rounds
      = processLines none []
          ["Row 1: sc in 2nd ch from hook, sc across (24 sc)".toList] := by
  exact c9_premarker_lines_discarded c5Text
    ["Foundation: Ch 25".toList]
    ["Row 1: sc in 2nd ch from hook, sc across (24 sc)".toList]
    (by decide) (by decide)

/-! ### Claim C4 -/

/-- C4 is false on the code: the chart of `"Round 5: 6 sc"` has exactly one
round — at position 1, so the claim puts it at radius `baseRadius = 50` —
but its only guide circle sits at radius `50 + (5 - 1) * 35 = 190`, because
the renderer keys the radius on the record's `number` field (5), not on its
position. -/
theorem c4_counterexample :
    ((generate_stitch_diagram_svg
        (parse_pattern_structure "Round 5: 6 sc".toList)).filter isRoundCircle)
        = [Elem.circle 200 270 190]
      ∧ Elem.circle 200 270 50
          ∉ generate_stitch_diagram_svg (parse_pattern_structure "Round 5: 6 sc".toList) := by
  decide


/-- C4 (amended): in `generate_stitch_diagram_svg` every round's guide circle
is drawn at radius `50 + (number - 1) * 35` computed from the record's own
`number` field (`round_data['number']`), not from its position in parse
order; the radius is therefore a function of the numbers written in the
text.  (See `c4_counterexample`: a single round numbered 5 sits at radius
190, not at the base radius 50 its position would dictate.) -/
theorem c4_radius_from_number_field (p : ParsedPattern) (r : RoundRecord)
    (h : r ∈ p.rounds) :
    Elem.circle (svgCenterX p.rounds) svgCenterY (50 + ((r.number : Int) - 1) * 35)
      ∈ generate_stitch_diagram_svg p := by
  have hmem : Elem.circle (svgCenterX p.rounds) svgCenterY
      (50 + ((r.number : Int) - 1) * 35)
      ∈ roundElems (svgCenterX p.rounds) svgCenterY r := by
    unfold roundElems
    simp
  have hflat : Elem.circle (svgCenterX p.rounds) svgCenterY
      (50 + ((r.number : Int) - 1) * 35)
      ∈ p.rounds.flatMap (roundElems (svgCenterX p.rounds) svgCenterY) :=
    List.mem_flatMap.mpr ⟨r, h, hmem⟩
  unfold generate_stitch_diagram_svg
  simp only [List.append_assoc, List.mem_append]
  tauto

/-- Witness for C4 (amended): the single round of `"Round 3: 6 sc"` (number
field 3) is drawn at radius `50 + (3 - 1) * 35 = 120`. -/
theorem c4_witness :
    Elem.circle (svgCenterX (parse_pattern_structure "Round 3: 6 sc".toList).rounds)
        svgCenterY (50 + (((3 : Nat) : Int) - 1) * 35)
      ∈ generate_stitch_diagram_svg (parse_pattern_structure "Round 3: 6 sc".toList) := by
  exact c4_radius_from_number_field (parse_pattern_structure "Round 3: 6 sc".toList)
    ⟨3, "Round 3: 6 sc".toList, 6, [("sc", 1)]⟩ (by decide)

/-! ### Claim C6 (amended theorem) -/

/-- C6 (amended): the renderer draws exactly `stitchCount` ring symbols for
every round — there is no readability threshold, no representative prefix
and no `…` truncation marker anywhere in `_draw_round_stitches` — while the
round's stitch-count label does show the true full count. -/
theorem c6_no_display_cap (cx cy radius : Int) (r : RoundRecord) (p : ParsedPattern)
    (h : r ∈ p.rounds) :
    (draw_round_stitches cx cy radius r).length = r.stitches
      ∧ (∀ e ∈ draw_round_stitches cx cy radius r, textHasEllipsis e = false)
      ∧ Elem.text ("(" ++ Nat.repr r.stitches ++ ")")
          (svgCenterX p.rounds - (50 + ((r.number : Int) - 1) * 35) - 50)
          (svgCenterY - (50 + ((r.number : Int) - 1) * 35) + 22)
          ∈ generate_stitch_diagram_svg p := by
  refine ⟨?_, ?_, ?_⟩
  · unfold draw_round_stitches
    split_ifs with h0
    · simp [h0]
    · simp
  · intro e he
    unfold draw_round_stitches at he
    split_ifs at he
    · simp at he
    · simp only [List.mem_map, List.mem_range] at he
      obtain ⟨i, -, rfl⟩ := he
      rfl
  · have hmem : Elem.text ("(" ++ Nat.repr r.stitches ++ ")")
        (svgCenterX p.rounds - (50 + ((r.number : Int) - 1) * 35) - 50)
        (svgCenterY - (50 + ((r.number : Int) - 1) * 35) + 22)
        ∈ roundElems (svgCenterX p.rounds) svgCenterY r := by
      unfold roundElems
      simp
    have hflat := List.mem_flatMap.mpr ⟨r, h, hmem⟩
    unfold generate_stitch_diagram_svg
    simp only [List.append_assoc, List.mem_append]
    tauto

/-- Witness for C6 (amended) on the 201-stitch round: all 201 symbols are
drawn and the label shows the true total. -/
theorem c6_witness :
    (draw_round_stitches 0 0 50 ⟨1, "Round 1: (201 sc)".toList, 201, [("sc", 1)]⟩).length
        = (⟨1, "Round 1: (201 sc)".toList, 201, [("sc", 1)]⟩ : RoundRecord).stitches
      ∧ (∀ e ∈ draw_round_stitches 0 0 50
            ⟨1, "Round 1: (201 sc)".toList, 201, [("sc", 1)]⟩, textHasEllipsis e = false)
      ∧ Elem.text ("(" ++ Nat.repr (201 : Nat) ++ ")")
          (svgCenterX (parse_pattern_structure c6Text).rounds - (50 + (((1 : Nat) : Int) - 1) * 35) - 50)
          (svgCenterY - (50 + (((1 : Nat) : Int) - 1) * 35) + 22)
          ∈ generate_stitch_diagram_svg (parse_pattern_structure c6Text) := by
  exact c6_no_display_cap 0 0 50 ⟨1, "Round 1: (201 sc)".toList, 201, [("sc", 1)]⟩
    (parse_pattern_structure c6Text) (by decide)

/-! ### Claim C7 (amended theorem) -/

/-- C7 (amended): on a pattern with zero rounds neither renderer fails (both
are total functions): the SVG chart contains no ring stitch symbols and no
round guide circles (only the fixed background, title, info line and
legend — and no placeholder, see `c7_counterexample`), while the matplotlib
PNG chart is exactly the `'No pattern data available'` placeholder plus the
fixed title. -/
theorem c7_empty_pattern_handled (p : ParsedPattern) (h : p.rounds = []) :
    (∀ e ∈ generate_stitch_diagram_svg p, isRingStitch e = false ∧ isRoundCircle e = false)
      ∧ generate_pattern_chart_png p
          = [PngElem.text "No pattern data available", PngElem.title "Pattern Chart"] := by
  have hgen : generate_stitch_diagram_svg p
      = [Elem.rect 0 0 (svgWidth []) 500 "white",
         Elem.text "Crochet Pattern Chart" (svgCenterX []) 25,
         Elem.text ("Pattern: " ++ p.pattern_type ++ " • " ++ Nat.repr p.total_rounds
             ++ " rounds") (svgCenterX []) 45]
        ++ legendElems (svgWidth []) 500 := by
    unfold generate_stitch_diagram_svg
    rw [h]
    simp [radialGuidelines, directionalArrows]
  constructor
  · intro e he
    rw [hgen] at he
    rcases List.mem_append.mp he with he | he
    · simp only [List.mem_cons, List.not_mem_nil, or_false] at he
      rcases he with rfl | rfl | rfl <;> exact ⟨rfl, rfl⟩
    · simp [legendElems, legendItems, List.enum, List.enumFrom] at he
      rcases he with rfl | rfl | rfl | rfl | rfl | rfl | rfl | rfl | rfl | rfl | rfl <;>
        exact ⟨rfl, rfl⟩
  · unfold generate_pattern_chart_png
    rw [h]
    simp

/-- Witness for C7 (amended) at the empty input. -/
theorem c7_witness :
    generate_pattern_chart_png (parse_pattern_structure ([] : List Char))
      = [PngElem.text "No pattern data available", PngElem.title "Pattern Chart"] := by
  exact (c7_empty_pattern_handled (parse_pattern_structure ([] : List Char)) (by decide)).2

/-! ### Claim C8 (amended theorem) -/

/-- C8 (amended): a continuation line extends the open record by summing the
stitch counts but merging the stitch-type histograms with `dict.update` —
per-key overwrite by the continuation line's own count (new keys appended),
not a per-type sum (see `c8_counterexample`). -/
theorem c8_continuation_update (r : RoundRecord) (acc : List RoundRecord)
    (l : List Char) (rest : List (List Char))
    (hb : pyStrip l ≠ []) (hm : matchMarker (asciiLower (pyStrip l)) = none) :
    processLines (some r) acc (l :: rest)
      = processLines (some { number := r.number,
                             instructions := r.instructions ++ ' ' :: pyStrip l,
                             stitches := r.stitches + countStitches (pyStrip l),
                             stitch_types := histUpdate r.stitch_types
                               (identifyStitchTypes (pyStrip l)) }) acc rest := by
  simp [processLines, hb, hm, contLine]

/-- Witness for C8 (amended): folding the continuation `"3 sc"` into the
record opened by `"Round 1: 2 sc"`. -/
theorem c8_witness :
    processLines (some ⟨1, "Round 1: 2 sc".toList, 2, [("sc", 1)]⟩) [] ["3 sc".toList]
      = processLines (some ⟨1, "Round 1: 2 sc".toList ++ ' ' :: pyStrip "3 sc".toList,
            2 + countStitches (pyStrip "3 sc".toList),
            histUpdate [("sc", 1)] (identifyStitchTypes (pyStrip "3 sc".toList))⟩) [] [] := by
  exact c8_continuation_update ⟨1, "Round 1: 2 sc".toList, 2, [("sc", 1)]⟩ []
    "3 sc".toList [] (by decide) (by decide)

/-! ### Claim C10 -/

/-- C10: when the multiplier idiom `N <stitch> in each` matches but neither
`from ... M` nor `M st...` provides a prior-round count (and no
higher-precedence branch fired), `_count_stitches` falls through to the
per-abbreviation fallback sums — whose negative lookahead excludes the
`N <stitch> in each` occurrence itself — plus the `'ch 3'`-only bonus when
the sum is positive, floored to a minimum of 1; the result is independent
of the bare multiplier `N`. -/
theorem c10_multiplier_fallthrough (instr : List Char) (m : Nat)
    (h1 : explicitTotal (asciiLower instr) = none)
    (h2 : totalPhrase (asciiLower instr) = none)
    (h3 : magicRing (asciiLower instr) = none)
    (h4 : increaseMul (asciiLower instr) = some m)
    (h5 : fromDigits (asciiLower instr) = none)
    (h6 : stsDigits (asciiLower instr) = none) :
    countStitches instr
        = max (if chThreeLit (asciiLower instr) ∧ 0 < fallbackSum (asciiLower instr) then
                 fallbackSum (asciiLower instr) + 1
               else fallbackSum (asciiLower instr)) 1
      ∧ 1 ≤ countStitches instr := by
  have heq : countStitches instr
      = max (if chThreeLit (asciiLower instr) ∧ 0 < fallbackSum (asciiLower instr) then
               fallbackSum (asciiLower instr) + 1
             else fallbackSum (asciiLower instr)) 1 := by
    unfold countStitches
    rw [h1, h2, h3, h4, h5, h6]
  refine ⟨heq, ?_⟩
  rw [heq]
  exact le_max_right _ 1

/-- Witness for C10 at `"2 sc in each st around"`: the multiplier 2 matches,
no prior count is discoverable, the lookahead-excluded fallback sums are 0,
and the count is the floor 1 — not the bare multiplier. -/
theorem c10_witness :
    countStitches "2 sc in each st around".toList
        = max (if chThreeLit (asciiLower "2 sc in each st around".toList)
                  ∧ 0 < fallbackSum (asciiLower "2 sc in each st around".toList) then
                 fallbackSum (asciiLower "2 sc in each st around".toList) + 1
               else fallbackSum (asciiLower "2 sc in each st around".toList)) 1
      ∧ 1 ≤ countStitches "2 sc in each st around".toList := by
  exact c10_multiplier_fallthrough "2 sc in each st around".toList 2
    (by decide) (by decide) (by decide) (by decide) (by decide) (by decide)

end CrookedFinger







